import Mathlib

/-!
Shallow embedding of the MondayOdoo reconciliation flows
(use_cases.py and the dataset_generation variants of the same logic).

The board-service (Monday) side is modelled by the JSON tree shape the code
reads: a response with a status code and an optional data payload holding a
list of boards, each with an items page of items, each with a name and a list
of column values. The business-suite (Odoo) side is modelled by an explicit
record store threaded through the run, since later lookups in the same run can
observe earlier creates. Every Odoo RPC call can raise a fault; the embedding
takes a failure oracle on decisions and models an uncaught fault as an aborted
run (Option state = none). The pure plan semantics is the oracle that never
fails.
-/

namespace MondayOdoo

/-- Field values appearing in applicant and item payloads: strings or integers. -/
inductive FieldValue where
  | str (s : String)
  | int (n : Int)
deriving DecidableEq

/-- First-match association-list lookup, modelling Python dict read access. -/
def assocGet {α : Type} : List (String × α) → String → Option α
  | [], _ => none
  | kv :: rest, key => if kv.1 = key then some kv.2 else assocGet rest key

/-- Python dict assignment d[k] = v on an association list. -/
def assocSet {α : Type} : List (String × α) → String → α → List (String × α)
  | [], key, v => [(key, v)]
  | kv :: rest, key, v =>
      if kv.1 = key then (key, v) :: rest else kv :: assocSet rest key v

/-- One entry of an item's column_values; text is null when the column is empty. -/
structure ColumnValue where
  text : Option String
deriving DecidableEq

/-- An item of a Monday board, as read by the queries in monday_crud.py. -/
structure Item where
  name : String
  column_values : List ColumnValue
deriving DecidableEq

/-- The items_page node of a board. -/
structure ItemsPage where
  items : List Item
deriving DecidableEq

/-- A board node of the response tree. -/
structure Board where
  items_page : ItemsPage
deriving DecidableEq

/-- The data node of a successful read response. -/
structure RespData where
  boards : List Board
deriving DecidableEq

/-- A Monday HTTP response: status code plus the parsed JSON body
(none models a falsy body, so the if response_json guard fails). -/
structure MondayResponse where
  status_code : Nat
  json : Option RespData
deriving DecidableEq

/-- An applicant record in the Odoo store, with its integer primary key. -/
structure Applicant where
  id : Int
  fields : List (String × FieldValue)
deriving DecidableEq

/-- The Odoo record store: the next primary key and the records in id order. -/
structure OdooState where
  nextId : Int
  applicants : List Applicant
deriving DecidableEq

/-- A sync decision issued to Odoo: a create with a field payload or a write
to one target id with a field payload. -/
inductive Decision where
  | create (fields : List (String × FieldValue))
  | update (targetId : Int) (fields : List (String × FieldValue))
deriving DecidableEq

/-- Field payload carried by a decision. -/
def Decision.payload : Decision → List (String × FieldValue)
  | .create fs => fs
  | .update _ fs => fs

/-- Field dictionary sent by create_applicant_with_name in odoo_crud.py. -/
def newApplicantFields (name : String) : List (String × FieldValue) :=
  [("partner_name", FieldValue.str name), ("name", FieldValue.str "New Applicant!")]

/-- Creates emitted for one board's item list by the use_case_1 inner loop:
one create per item whose name equals the requested name. -/
def boardCreates (item_name : String) : List Item → List Decision
  | [] => []
  | item :: rest =>
      if item.name = item_name then
        Decision.create (newApplicantFields item.name) :: boardCreates item_name rest
      else boardCreates item_name rest

/-- Creates emitted by the use_case_1 outer loop over every board of the response. -/
def allBoardsCreates (item_name : String) : List Board → List Decision
  | [] => []
  | b :: rest => boardCreates item_name b.items_page.items ++ allBoardsCreates item_name rest

/-- Odoo creates issued by fetch_applicants_from_monday (dataset use case 1):
on a 200 response with a truthy body, iterate all boards and all items and
create an applicant for each item matching the requested name; otherwise
report and do nothing. -/
def fetch_applicants_from_monday (resp : MondayResponse) (item_name : String) : List Decision :=
  if resp.status_code = 200 then
    match resp.json with
    | some d => allBoardsCreates item_name d.boards
    | none => []
  else []

/-- Odoo creates issued by use_case_1, which fixes the filter name to Chaves. -/
def use_case_1_run (resp : MondayResponse) : List Decision :=
  fetch_applicants_from_monday resp "Chaves"

/-- All items of a board list, in board order then item order, as enumerated by
the nested use_case_1 loops. -/
def allItems : List Board → List Item
  | [] => []
  | b :: rest => b.items_page.items ++ allItems rest

/-- Sequencing of two run fragments: the second runs from the first fragment's
resulting store and only when the first did not abort; the attempted decisions
are concatenated. -/
def seqRun (first : List Decision × Option OdooState)
    (next : OdooState → List Decision × Option OdooState) :
    List Decision × Option OdooState :=
  match first with
  | (tr, none) => (tr, none)
  | (tr, some st1) =>
      let r := next st1
      (tr ++ r.1, r.2)

/-- Status text extraction of the use_case_2 item loop: the first column value's
text when column_values is non-empty, else the sentinel string. A present entry
whose text is null yields none (Python None). -/
def statusText (item : Item) : Option String :=
  match item.column_values with
  | [] => some "Status not found"
  | cv :: _ => cv.text

/-- Stage resolution STATUS_TO_STAGE_ID.get(status_text, None); a Python None
status text is never a dict key, so it also resolves to none. -/
def stageOf (statusLookup : List (String × Int)) : Option String → Option Int
  | none => none
  | some t => assocGet statusLookup t

/-- The STATUS_TO_STAGE_ID dictionary of use_cases.py. -/
def STATUS_TO_STAGE_ID : List (String × Int) :=
  [("New", 1), ("Initial Qualification", 2), ("First Interview", 3),
   ("Second interview", 4), ("Contract Proposal", 5), ("Contract Signed", 6)]

/-- Odoo search with filter partner_name = name: ids of matching records in
store order, as returned by read_applicants_ids_with_name. -/
def searchIdsByPartnerName (st : OdooState) (name : String) : List Int :=
  (st.applicants.filter
      (fun a => decide (assocGet a.fields "partner_name" = some (FieldValue.str name)))).map
    (fun a => a.id)

/-- The applicant_data dictionary built per item in use_case_2. -/
def applicantData (partner_name : String) (stage_id : Int) : List (String × FieldValue) :=
  [("partner_name", FieldValue.str partner_name),
   ("name", FieldValue.str "Updated Status!"),
   ("stage_id", FieldValue.int stage_id)]

/-- Python dict.update semantics of an Odoo write applied to one record's fields. -/
def updateFields (fields : List (String × FieldValue)) (kvs : List (String × FieldValue)) :
    List (String × FieldValue) :=
  kvs.foldl (fun fs kv => assocSet fs kv.1 kv.2) fields

/-- Odoo create: appends a record under the next primary key and returns it. -/
def createApplicant (st : OdooState) (fields : List (String × FieldValue)) : OdooState × Int :=
  (⟨st.nextId + 1, st.applicants ++ [⟨st.nextId, fields⟩]⟩, st.nextId)

/-- Odoo write: merges the field dictionary into every record with the target id. -/
def writeApplicant (st : OdooState) (targetId : Int) (kvs : List (String × FieldValue)) :
    OdooState :=
  ⟨st.nextId,
   st.applicants.map (fun a => if a.id = targetId then ⟨a.id, updateFields a.fields kvs⟩ else a)⟩

/-- Effect of one successfully executed decision on the Odoo store. -/
def execDecision (st : OdooState) : Decision → OdooState
  | .create fs => (createApplicant st fs).1
  | .update targetId fs => writeApplicant st targetId fs

/-- Attempt of one decision against a fallible RPC client; the oracle failOn
says which call raises a fault, modelled as none (uncaught exception). -/
def attemptDecision (failOn : Decision → Bool) (st : OdooState) (d : Decision) :
    Option OdooState :=
  if failOn d then none else some (execDecision st d)

/-- The inner for-loop over applicant_ids in use_case_2: one update decision per
matched id, in id-list order, aborting the run on an uncaught fault. Returns
the attempted decisions and the resulting store (none = aborted). -/
def applyUpdates (failOn : Decision → Bool) (st : OdooState)
    (data : List (String × FieldValue)) : List Int → List Decision × Option OdooState
  | [] => ([], some st)
  | targetId :: rest =>
      let d := Decision.update targetId data
      match attemptDecision failOn st d with
      | none => ([d], none)
      | some st1 =>
          let r := applyUpdates failOn st1 data rest
          (d :: r.1, r.2)

/-- One iteration of the use_case_2 item loop: resolve the stage (skip on a
lookup miss), search existing records by partner name, then create when no
match exists or update every match. -/
def processItem (failOn : Decision → Bool) (statusLookup : List (String × Int))
    (st : OdooState) (item : Item) : List Decision × Option OdooState :=
  match stageOf statusLookup (statusText item) with
  | none => ([], some st)
  | some stage_id =>
      let applicant_ids := searchIdsByPartnerName st item.name
      let data := applicantData item.name stage_id
      if applicant_ids.isEmpty then
        let d := Decision.create data
        ([d], attemptDecision failOn st d)
      else
        applyUpdates failOn st data applicant_ids

/-- The use_case_2 loop over the first board's items, threading the Odoo store
so that later lookups observe earlier creates; an uncaught fault in one
iteration aborts the remaining iterations. -/
def processItems (failOn : Decision → Bool) (statusLookup : List (String × Int))
    (st : OdooState) : List Item → List Decision × Option OdooState
  | [] => ([], some st)
  | item :: rest =>
      match processItem failOn statusLookup st item with
      | (tr, none) => (tr, none)
      | (tr, some st1) =>
          let r := processItems failOn statusLookup st1 rest
          (tr ++ r.1, r.2)

/-- Run of use_case_2 / fetch_applicants_from_monday_and_update_on_odoo: on a
200 response with a truthy body it processes the items of boards[0] only
(an empty board list makes the subscript raise, modelled as an aborted run);
otherwise it reports and leaves the store untouched with no decisions. -/
def use_case_2_run (failOn : Decision → Bool) (statusLookup : List (String × Int))
    (st : OdooState) (resp : MondayResponse) : List Decision × Option OdooState :=
  if resp.status_code = 200 then
    match resp.json with
    | some d =>
        match d.boards with
        | [] => ([], none)
        | b :: _ => processItems failOn statusLookup st b.items_page.items
    | none => ([], some st)
  else ([], some st)

/-- The oracle under which no RPC call faults: the pure plan semantics. -/
def neverFail : Decision → Bool := fun _ => false

/-- An employee record read from Odoo by read_employees_and_fields. -/
structure Employee where
  fields : List (String × FieldValue)
deriving DecidableEq

/-- A mutation issued to the board service by the Monday client. The client
also exposes an update operation (update_column_value_of_item), so emitting
only creates is a property of the flow, not of the client. -/
inductive MondayMutation where
  | create_item (board_id : Int) (item_name : FieldValue)
      (values : List (String × FieldValue))
  | change_column_value (board_id : Int) (item_id : Int) (column_id : String) (value : String)
deriving DecidableEq

/-- Whether a board-service mutation is an item creation. -/
def MondayMutation.isCreateItem : MondayMutation → Bool
  | .create_item _ _ _ => true
  | .change_column_value _ _ _ _ => false

/-- The monday_key_values dictionary built by the mapping loop of use case 3b:
for each mapping pair (source key, destination key) assign the employee's
value at the source key under the destination key; none models the KeyError
raised when an employee lacks a source key. -/
def buildMondayValues (mapping : List (String × String)) (emp : Employee) :
    Option (List (String × FieldValue)) :=
  mapping.foldl
    (fun acc kv =>
      match acc, assocGet emp.fields kv.1 with
      | some fs, some v => some (assocSet fs kv.2 v)
      | _, _ => none)
    (some [])

/-- The employee loop of use case 3b: for each employee, build the mapped
values and create one item named by the employee's name field; none models a
KeyError aborting the loop. -/
def createItemsOnMonday (board_id : Int) (mapping : List (String × String)) :
    List Employee → Option (List MondayMutation)
  | [] => some []
  | emp :: rest =>
      match buildMondayValues mapping emp, assocGet emp.fields "name" with
      | some vals, some n =>
          match createItemsOnMonday board_id mapping rest with
          | some ms => some (MondayMutation.create_item board_id n vals :: ms)
          | none => none
      | _, _ => none

/-- The data node of a create_board response. -/
structure CreateBoardData where
  id : Int
deriving DecidableEq

/-- A create_board HTTP response: status code and optional parsed body. -/
structure CreateBoardResponse where
  status_code : Nat
  json : Option CreateBoardData
deriving DecidableEq

/-- Run of fetch_employees_from_odoo_and_create_on_monday (use case 3b): after
creating the destination board, on a 200 response with a truthy body it
creates one item per employee on that board; otherwise nothing happens (the
function has no else branch). -/
def fetch_employees_from_odoo_and_create_on_monday (mapping : List (String × String))
    (employees : List Employee) (boardResp : CreateBoardResponse) :
    Option (List MondayMutation) :=
  if boardResp.status_code = 200 then
    match boardResp.json with
    | some bd => createItemsOnMonday bd.id mapping employees
    | none => some []
  else some []

/-! Helper lemmas about the embedded operations. -/

/-- Reading the key just written returns the written value. -/
theorem assocGet_assocSet_self {α : Type} (fs : List (String × α)) (key : String) (v : α) :
    assocGet (assocSet fs key v) key = some v := by
  induction fs with
  | nil => simp [assocSet, assocGet]
  | cons kv rest ih =>
      by_cases h : kv.1 = key
      · simp [assocSet, assocGet, h]
      · simp [assocSet, assocGet, h, ih]

/-- Writing one key leaves reads of any other key unchanged. -/
theorem assocGet_assocSet_other {α : Type} (fs : List (String × α)) (key k : String) (v : α)
    (h : key ≠ k) : assocGet (assocSet fs key v) k = assocGet fs k := by
  induction fs with
  | nil => simp [assocSet, assocGet, h]
  | cons kv rest ih =>
      by_cases hk : kv.1 = key
      · simp [assocSet, assocGet, hk, h]
      · simp [assocSet, assocGet, hk, ih]

/-- Merging the use_case_2 payload into any field list pins the name field to
the constant string. -/
theorem updateFields_applicantData_name (fs : List (String × FieldValue))
    (n : String) (s : Int) :
    assocGet (updateFields fs (applicantData n s)) "name" =
      some (FieldValue.str "Updated Status!") := by
  show assocGet
      (assocSet (assocSet (assocSet fs "partner_name" (FieldValue.str n))
          "name" (FieldValue.str "Updated Status!")) "stage_id" (FieldValue.int s)) "name" = _
  rw [assocGet_assocSet_other _ _ _ _ (by decide)]
  exact assocGet_assocSet_self _ _ _

/-- The use_case_1 inner loop emits exactly the filtered items, mapped to
creates, in item order. -/
theorem boardCreates_eq_filterMap (item_name : String) (items : List Item) :
    boardCreates item_name items =
      (items.filter (fun i => decide (i.name = item_name))).map
        (fun i => Decision.create (newApplicantFields i.name)) := by
  induction items with
  | nil => rfl
  | cons i rest ih =>
      by_cases h : i.name = item_name
      · simp [boardCreates, h, ih]
      · simp [boardCreates, h, ih]

/-- The use_case_1 inner loop distributes over list append. -/
theorem boardCreates_append (item_name : String) (xs ys : List Item) :
    boardCreates item_name (xs ++ ys) =
      boardCreates item_name xs ++ boardCreates item_name ys := by
  simp [boardCreates_eq_filterMap]

/-- The use_case_1 outer loop distributes over board-list append. -/
theorem allBoardsCreates_append (item_name : String) (bs1 bs2 : List Board) :
    allBoardsCreates item_name (bs1 ++ bs2) =
      allBoardsCreates item_name bs1 ++ allBoardsCreates item_name bs2 := by
  induction bs1 with
  | nil => simp [allBoardsCreates]
  | cons b rest ih => simp [allBoardsCreates, ih]

/-- The nested use_case_1 loops equal one pass over the concatenated items. -/
theorem allBoardsCreates_eq_allItems (item_name : String) (bs : List Board) :
    allBoardsCreates item_name bs = boardCreates item_name (allItems bs) := by
  induction bs with
  | nil => rfl
  | cons b rest ih => simp [allBoardsCreates, allItems, boardCreates_append, ih]

/-- Under the never-faulting oracle the update loop issues one update per id in
order and folds the writes through the store. -/
theorem applyUpdates_noFail (st : OdooState) (data : List (String × FieldValue))
    (ids : List Int) :
    applyUpdates neverFail st data ids =
      (ids.map (fun targetId => Decision.update targetId data),
       some (ids.foldl (fun s targetId => writeApplicant s targetId data) st)) := by
  induction ids generalizing st with
  | nil => rfl
  | cons i rest ih =>
      simp [applyUpdates, attemptDecision, neverFail, execDecision, ih]

/-- Trace of one never-faulting use_case_2 iteration: nothing on a stage-lookup
miss, one create when the name search is empty, else one update per match. -/
theorem processItem_noFail_trace (statusLookup : List (String × Int)) (st : OdooState)
    (item : Item) :
    (processItem neverFail statusLookup st item).1 =
      match stageOf statusLookup (statusText item) with
      | none => []
      | some stage_id =>
          if searchIdsByPartnerName st item.name = [] then
            [Decision.create (applicantData item.name stage_id)]
          else
            (searchIdsByPartnerName st item.name).map
              (fun targetId => Decision.update targetId (applicantData item.name stage_id)) := by
  unfold processItem
  cases hstage : stageOf statusLookup (statusText item) with
  | none => rfl
  | some stage_id =>
      cases hids : searchIdsByPartnerName st item.name with
      | nil => simp [hids]
      | cons i rest => simp [hids, applyUpdates_noFail]

/-- A successful employee loop pairs each employee with exactly one created
item, whose name is the employee's name field and whose values are the mapping
projection of the employee's fields. -/
theorem createItemsOnMonday_forall₂ (board_id : Int) (mapping : List (String × String))
    (employees : List Employee) (ms : List MondayMutation)
    (h : createItemsOnMonday board_id mapping employees = some ms) :
    List.Forall₂
      (fun (emp : Employee) (m : MondayMutation) =>
        ∃ n vals, assocGet emp.fields "name" = some n ∧
          buildMondayValues mapping emp = some vals ∧
          m = MondayMutation.create_item board_id n vals)
      employees ms := by
  induction employees generalizing ms with
  | nil =>
      rw [createItemsOnMonday] at h
      cases h
      exact List.Forall₂.nil
  | cons emp rest ih =>
      rw [createItemsOnMonday] at h
      cases hb : buildMondayValues mapping emp with
      | none => rw [hb] at h; cases h
      | some vals =>
          cases hn : assocGet emp.fields "name" with
          | none => rw [hb, hn] at h; cases h
          | some n =>
              rw [hb, hn] at h
              cases hr : createItemsOnMonday board_id mapping rest with
              | none => rw [hr] at h; cases h
              | some ms0 =>
                  rw [hr] at h
                  simp only [Option.some.injEq] at h
                  subst h
                  exact List.Forall₂.cons ⟨n, vals, hn, hb, rfl⟩ (ih ms0 hr)

/-- Every mutation emitted by a successful employee loop is an item creation. -/
theorem createItemsOnMonday_all_creates (board_id : Int) (mapping : List (String × String))
    (employees : List Employee) (ms : List MondayMutation)
    (h : createItemsOnMonday board_id mapping employees = some ms) :
    ∀ m ∈ ms, m.isCreateItem = true := by
  induction employees generalizing ms with
  | nil =>
      rw [createItemsOnMonday] at h
      cases h
      intro m hm
      cases hm
  | cons emp rest ih =>
      rw [createItemsOnMonday] at h
      cases hb : buildMondayValues mapping emp with
      | none => rw [hb] at h; cases h
      | some vals =>
          cases hn : assocGet emp.fields "name" with
          | none => rw [hb, hn] at h; cases h
          | some n =>
              rw [hb, hn] at h
              cases hr : createItemsOnMonday board_id mapping rest with
              | none => rw [hr] at h; cases h
              | some ms0 =>
                  rw [hr] at h
                  simp only [Option.some.injEq] at h
                  subst h
                  intro m hm
                  cases hm with
                  | head => rfl
                  | tail _ hm0 => exact ih ms0 hr m hm0

/-! Claim theorems. -/

/-- Claim C1, counterexample: in one run of the create-missing flow over a
board with two items both named Chaves, two Create decisions carrying the same
name are emitted, so emitted Creates are not deduplicated by name; the flow
also never consults the names already present on the target (the target store
does not occur in use_case_1_run at all). -/
theorem use_case_1_duplicate_creates_cex :
    use_case_1_run ⟨200, some ⟨[⟨⟨[⟨"Chaves", []⟩, ⟨"Chaves", []⟩]⟩⟩]⟩⟩ =
      [Decision.create
          [("partner_name", FieldValue.str "Chaves"),
           ("name", FieldValue.str "New Applicant!")],
       Decision.create
          [("partner_name", FieldValue.str "Chaves"),
           ("name", FieldValue.str "New Applicant!")]] := by
  decide

/-- Claim C1, amended: for every run of the create-missing flow on a successful
response, one Create decision is emitted per item whose name satisfies the
filter predicate, in enumeration order across all boards; the set of names on
the target is never consulted and duplicate matching names yield duplicate
Creates (no dedupe by name). -/
theorem use_case_1_create_per_matching_item (bs : List Board) (item_name : String) :
    fetch_applicants_from_monday ⟨200, some ⟨bs⟩⟩ item_name =
      ((allItems bs).filter (fun i => decide (i.name = item_name))).map
        (fun i => Decision.create (newApplicantFields i.name)) := by
  show allBoardsCreates item_name bs = _
  rw [allBoardsCreates_eq_allItems, boardCreates_eq_filterMap]

/-- Claim C2, counterexample: with a faulting business-suite client, a run over
two items whose decisions are both creates attempts only the first decision;
the same run under a never-faulting client attempts both, so a failure while
applying one decision does prevent the remaining decisions of the run from
being attempted (there is no per-decision error handling in the loop). -/
theorem use_case_2_failure_stops_run_cex :
    (processItems (fun _ => true) STATUS_TO_STAGE_ID ⟨1, []⟩
        [⟨"A", [⟨some "New"⟩]⟩, ⟨"B", [⟨some "New"⟩]⟩]).1 =
      [Decision.create (applicantData "A" 1)] ∧
    (processItems neverFail STATUS_TO_STAGE_ID ⟨1, []⟩
        [⟨"A", [⟨some "New"⟩]⟩, ⟨"B", [⟨some "New"⟩]⟩]).1 =
      [Decision.create (applicantData "A" 1), Decision.create (applicantData "B" 1)] :=
  ⟨by decide, by decide⟩

/-- Claim C2, amended: decisions are executed synchronously, one item at a
time and in list order, but an uncaught fault while applying one item's
decision aborts the run: the attempted decisions are exactly those up to and
including the faulting one, and the remaining items' decisions are not
attempted. -/
theorem use_case_2_fault_aborts_remaining (failOn : Decision → Bool)
    (statusLookup : List (String × Int)) (st : OdooState) (item : Item)
    (rest : List Item) (tr : List Decision)
    (h : processItem failOn statusLookup st item = (tr, none)) :
    processItems failOn statusLookup st (item :: rest) = (tr, none) := by
  simp [processItems, h]

/-- Witness for the amended claim C2 at a concrete faulting run. -/
theorem use_case_2_fault_aborts_remaining_witness :
    processItems (fun _ => true) STATUS_TO_STAGE_ID ⟨1, []⟩
        [⟨"A", [⟨some "New"⟩]⟩, ⟨"B", [⟨some "New"⟩]⟩] =
      ([Decision.create (applicantData "A" 1)], none) :=
  use_case_2_fault_aborts_remaining _ _ _ _ _ _ (by decide)

/-- Claim C3: in the upsert-by-status flow, every item whose status resolves
to a stage and whose existing-record lookup by name returns zero matches
yields exactly one Create decision, and every item whose lookup returns one or
more matches yields exactly one Update decision per matched target id, all
carrying the same field payload. -/
theorem use_case_2_upsert_decisions (statusLookup : List (String × Int)) (st : OdooState)
    (item : Item) (stage_id : Int)
    (h : stageOf statusLookup (statusText item) = some stage_id) :
    (processItem neverFail statusLookup st item).1 =
      if searchIdsByPartnerName st item.name = [] then
        [Decision.create (applicantData item.name stage_id)]
      else
        (searchIdsByPartnerName st item.name).map
          (fun targetId => Decision.update targetId (applicantData item.name stage_id)) := by
  rw [processItem_noFail_trace, h]

/-- Witness for claim C3: an item with two existing matches of the same name
receives exactly two Update decisions, one per matched id, with one payload. -/
theorem use_case_2_upsert_decisions_witness :
    (processItem neverFail STATUS_TO_STAGE_ID
        ⟨3, [⟨1, [("partner_name", FieldValue.str "Dana")]⟩,
             ⟨2, [("partner_name", FieldValue.str "Dana")]⟩]⟩
        ⟨"Dana", [⟨some "First Interview"⟩]⟩).1 =
      [Decision.update 1 (applicantData "Dana" 3),
       Decision.update 2 (applicantData "Dana" 3)] := by
  have h := use_case_2_upsert_decisions STATUS_TO_STAGE_ID
      ⟨3, [⟨1, [("partner_name", FieldValue.str "Dana")]⟩,
           ⟨2, [("partner_name", FieldValue.str "Dana")]⟩]⟩
      ⟨"Dana", [⟨some "First Interview"⟩]⟩ 3 (by decide)
  rw [h]
  decide

/-- Claim C4: an item whose status text is not a key of the status lookup
contributes no decision and leaves the store untouched, and the run continues
with the remaining items exactly as if the item were absent; no default stage
is substituted. -/
theorem use_case_2_unmapped_status_skips (failOn : Decision → Bool)
    (statusLookup : List (String × Int)) (st : OdooState) (item : Item)
    (rest : List Item) (h : stageOf statusLookup (statusText item) = none) :
    processItem failOn statusLookup st item = ([], some st) ∧
    processItems failOn statusLookup st (item :: rest) =
      processItems failOn statusLookup st rest := by
  have h1 : processItem failOn statusLookup st item = ([], some st) := by
    unfold processItem
    rw [h]
  refine ⟨h1, ?_⟩
  simp [processItems, h1]

/-- Witness for claim C4 at a concrete unmapped status. -/
theorem use_case_2_unmapped_status_skips_witness :
    processItem neverFail STATUS_TO_STAGE_ID ⟨1, []⟩ ⟨"X", [⟨some "Unknown"⟩]⟩ =
      ([], some ⟨1, []⟩) ∧
    processItems neverFail STATUS_TO_STAGE_ID ⟨1, []⟩
        [⟨"X", [⟨some "Unknown"⟩]⟩, ⟨"A", [⟨some "New"⟩]⟩] =
      processItems neverFail STATUS_TO_STAGE_ID ⟨1, []⟩ [⟨"A", [⟨some "New"⟩]⟩] :=
  use_case_2_unmapped_status_skips _ _ _ _ _ (by decide)

/-- Claim C6: an item whose designated status column carries no value (its
column_values list is empty) gets the sentinel status text, and the item is
processed exactly as an item whose first column value reads that sentinel, so
the sentinel goes through the ordinary lookup path. -/
theorem use_case_2_missing_column_sentinel (failOn : Decision → Bool)
    (statusLookup : List (String × Int)) (st : OdooState) (name : String) :
    statusText ⟨name, []⟩ = some "Status not found" ∧
    processItem failOn statusLookup st ⟨name, []⟩ =
      processItem failOn statusLookup st ⟨name, [⟨some "Status not found"⟩]⟩ :=
  ⟨rfl, rfl⟩

/-- Claim C7: a non-200 fetch response makes both flows report and abort the
phase: the upsert flow issues no decision and leaves the store untouched, and
the create-missing flow emits no Create, no matter what items the response
body carries. -/
theorem fetch_failure_aborts_without_decisions (failOn : Decision → Bool)
    (statusLookup : List (String × Int)) (st : OdooState) (resp : MondayResponse)
    (item_name : String) (h : resp.status_code ≠ 200) :
    use_case_2_run failOn statusLookup st resp = ([], some st) ∧
    fetch_applicants_from_monday resp item_name = [] := by
  constructor <;> simp [use_case_2_run, fetch_applicants_from_monday, h]

/-- Witness for claim C7: a 500 response whose body still lists a matching
item with a mapped status produces no decision in either flow. -/
theorem fetch_failure_aborts_without_decisions_witness :
    use_case_2_run neverFail STATUS_TO_STAGE_ID ⟨1, []⟩
        ⟨500, some ⟨[⟨⟨[⟨"Chaves", [⟨some "New"⟩]⟩]⟩⟩]⟩⟩ = ([], some ⟨1, []⟩) ∧
    fetch_applicants_from_monday ⟨500, some ⟨[⟨⟨[⟨"Chaves", [⟨some "New"⟩]⟩]⟩⟩]⟩⟩
        "Chaves" = [] :=
  fetch_failure_aborts_without_decisions _ _ _ _ _ (by decide)

/-- Claim C5: on a successful board creation, the mirror-onward flow of use
case 3b emits exactly one item creation per source employee, pairwise in
order, whose name is the employee's name field and whose payload maps each
field mapping's destination key to the employee's value at the corresponding
source key; every emitted mutation is a creation, never an update, and no
existing-item lookup occurs (the flow takes no board snapshot at all). -/
theorem mirror_onward_creates (mapping : List (String × String)) (employees : List Employee)
    (boardResp : CreateBoardResponse) (bd : CreateBoardData) (ms : List MondayMutation)
    (h200 : boardResp.status_code = 200) (hjson : boardResp.json = some bd)
    (h : fetch_employees_from_odoo_and_create_on_monday mapping employees boardResp = some ms) :
    List.Forall₂
      (fun (emp : Employee) (m : MondayMutation) =>
        ∃ n vals, assocGet emp.fields "name" = some n ∧
          buildMondayValues mapping emp = some vals ∧
          m = MondayMutation.create_item bd.id n vals)
      employees ms ∧
    ∀ m ∈ ms, m.isCreateItem = true := by
  simp only [fetch_employees_from_odoo_and_create_on_monday, h200, hjson, if_true] at h
  exact ⟨createItemsOnMonday_forall₂ _ _ _ _ h, createItemsOnMonday_all_creates _ _ _ _ h⟩

/-- Witness for claim C5 at a concrete employee and one-pair field mapping. -/
theorem mirror_onward_creates_witness :
    List.Forall₂
      (fun (emp : Employee) (m : MondayMutation) =>
        ∃ n vals, assocGet emp.fields "name" = some n ∧
          buildMondayValues [("work_email", "email")] emp = some vals ∧
          m = MondayMutation.create_item (7 : Int) n vals)
      [⟨[("name", FieldValue.str "Ann"), ("work_email", FieldValue.str "ann@x.com")]⟩]
      [MondayMutation.create_item 7 (FieldValue.str "Ann")
          [("email", FieldValue.str "ann@x.com")]] ∧
    ∀ m ∈ [MondayMutation.create_item (7 : Int) (FieldValue.str "Ann")
          [("email", FieldValue.str "ann@x.com")]], m.isCreateItem = true :=
  mirror_onward_creates [("work_email", "email")]
    [⟨[("name", FieldValue.str "Ann"), ("work_email", FieldValue.str "ann@x.com")]⟩]
    ⟨200, some ⟨7⟩⟩ ⟨7⟩ _ rfl rfl (by decide)

/-- Claim C8: decisions are applied in exactly the order items were enumerated
in the fetched snapshot: the run over any split of the item list equals the
run over the first part sequenced before the run over the second part from the
resulting store, so each item's mutations form a contiguous segment of the
trace in item order, with no reordering or parallel dispatch. -/
theorem decisions_follow_item_enumeration_order (failOn : Decision → Bool)
    (statusLookup : List (String × Int)) (st : OdooState) (items1 items2 : List Item) :
    processItems failOn statusLookup st (items1 ++ items2) =
      seqRun (processItems failOn statusLookup st items1)
        (fun st1 => processItems failOn statusLookup st1 items2) := by
  induction items1 generalizing st with
  | nil => simp [processItems, seqRun]
  | cons item rest ih =>
      cases hp : processItem failOn statusLookup st item with
      | mk tr res =>
          cases res with
          | none => simp [processItems, hp, seqRun]
          | some st1 =>
              cases hr : processItems failOn statusLookup st1 rest with
              | mk tr2 res2 =>
                  cases res2 with
                  | none => simp [processItems, hp, hr, seqRun, ih]
                  | some st2 => simp [processItems, hp, hr, seqRun, ih, List.append_assoc]

/-- Claim C9: every decision emitted by a never-faulting upsert iteration,
create or update, carries the payload mapping partner_name to the item's name,
name to the constant string, and stage_id to the resolved stage; and applying
such an update to the store overwrites the name field of every record with the
target id to that constant. -/
theorem upsert_payload_and_name_overwrite (statusLookup : List (String × Int))
    (st : OdooState) (item : Item) (d : Decision)
    (h : d ∈ (processItem neverFail statusLookup st item).1) :
    (∃ stage_id, stageOf statusLookup (statusText item) = some stage_id ∧
        d.payload =
          [("partner_name", FieldValue.str item.name),
           ("name", FieldValue.str "Updated Status!"),
           ("stage_id", FieldValue.int stage_id)]) ∧
    (∀ (st' : OdooState) (targetId : Int) (n : String) (s : Int),
      ∀ a ∈ (writeApplicant st' targetId (applicantData n s)).applicants,
        a.id = targetId →
          assocGet a.fields "name" = some (FieldValue.str "Updated Status!")) := by
  constructor
  · rw [processItem_noFail_trace] at h
    cases hstage : stageOf statusLookup (statusText item) with
    | none => rw [hstage] at h; cases h
    | some stage_id =>
        simp only [hstage] at h
        refine ⟨stage_id, rfl, ?_⟩
        by_cases hids : searchIdsByPartnerName st item.name = []
        · rw [if_pos hids] at h
          cases h with
          | head => rfl
          | tail _ h0 => cases h0
        · rw [if_neg hids] at h
          obtain ⟨targetId, -, rfl⟩ := List.mem_map.1 h
          rfl
  · intro st' targetId n s a ha hid
    simp only [writeApplicant] at ha
    obtain ⟨a0, ha0, hae⟩ := List.mem_map.1 ha
    by_cases h0 : a0.id = targetId
    · rw [if_pos h0] at hae
      subst hae
      exact updateFields_applicantData_name _ _ _
    · rw [if_neg h0] at hae
      subst hae
      exact absurd hid h0

/-- Witness for claim C9 at a concrete matched item yielding one update. -/
theorem upsert_payload_and_name_overwrite_witness :
    (∃ stage_id,
        stageOf STATUS_TO_STAGE_ID (statusText ⟨"B", [⟨some "New"⟩]⟩) = some stage_id ∧
        (Decision.update 1 (applicantData "B" 1)).payload =
          [("partner_name", FieldValue.str "B"),
           ("name", FieldValue.str "Updated Status!"),
           ("stage_id", FieldValue.int stage_id)]) ∧
    (∀ (st' : OdooState) (targetId : Int) (n : String) (s : Int),
      ∀ a ∈ (writeApplicant st' targetId (applicantData n s)).applicants,
        a.id = targetId →
          assocGet a.fields "name" = some (FieldValue.str "Updated Status!")) :=
  upsert_payload_and_name_overwrite STATUS_TO_STAGE_ID
    ⟨2, [⟨1, [("partner_name", FieldValue.str "B")]⟩]⟩ ⟨"B", [⟨some "New"⟩]⟩
    (Decision.update 1 (applicantData "B" 1)) (by decide)

/-- Claim C10: the upsert flow reads items only from the first board of the
response: replacing all later boards changes nothing about the run, so items
of later boards contribute no decision; the create-missing flow instead
iterates every board, each board list contributing its creates in order. -/
theorem upsert_reads_first_board_only (failOn : Decision → Bool)
    (statusLookup : List (String × Int)) (st : OdooState) (b : Board)
    (rest1 rest2 : List Board) (item_name : String) (bs1 bs2 : List Board) :
    use_case_2_run failOn statusLookup st ⟨200, some ⟨b :: rest1⟩⟩ =
      use_case_2_run failOn statusLookup st ⟨200, some ⟨b :: rest2⟩⟩ ∧
    allBoardsCreates item_name (bs1 ++ bs2) =
      allBoardsCreates item_name bs1 ++ allBoardsCreates item_name bs2 :=
  ⟨rfl, allBoardsCreates_append item_name bs1 bs2⟩

end MondayOdoo
